import Mathlib

/-!
Verification of the tcg-timer countdown board (src/src/App.tsx).

The development shallowly embeds the data model and the state transition
logic of the board: the per-second tick, the TimerCard controls, the
load-time normalization of persisted records, the milestone detector
with its lastSeen map, and the clock formatter. Seconds are modelled as
rationals, statuses as an enumeration, and the lastSeen map as an
association list with the same lookup behaviour as the JS object.
-/

/-- The status enumeration of src/src/App.tsx: TimerStatus. -/
inductive TimerStatus where
  | RUNNING
  | PAUSED
  | FINISHED
deriving DecidableEq, Repr

/-- The GameTimer record of src/src/App.tsx. -/
structure GameTimer where
  id : String
  game : String
  icon : Option String
  durationSec : ℚ
  remainingSec : ℚ
  status : TimerStatus
  announceAt : List ℚ
  pinned : Bool
deriving DecidableEq, Repr

/-- JS String(n).padStart(2, "0") for a natural number, as in App.tsx. -/
def pad (n : ℕ) : String :=
  let r := Nat.repr n
  if r.length < 2 then "0" ++ r else r

/-- formatHHMMSS from App.tsx: floor, clamp at zero, then split into
hour, minute and second fields; the hour field is omitted when zero. -/
def formatHHMMSS (totalSeconds : ℚ) : String :=
  let s : ℕ := (max 0 ⌊totalSeconds⌋).toNat
  let h := s / 3600
  let m := (s % 3600) / 60
  let sec := s % 60
  if h > 0 then pad h ++ ":" ++ pad m ++ ":" ++ pad sec
  else pad m ++ ":" ++ pad sec

/-- The fixed tick cadence of TimerBoard (tickRateMs = 1000). -/
def tickRateMs : ℚ := 1000

/-- The per-tick decrement in seconds, tickRateMs / 1000 in the source. -/
def tickDeltaSec : ℚ := tickRateMs / 1000

/-- One tick applied to a single timer, from the setInterval body of the
TimerBoard ticking effect: Running timers decrement with a clamp at 0
and flip to FINISHED when the clamped value is ≤ 0; others are returned
unchanged. -/
def tickTimer (tm : GameTimer) : GameTimer :=
  if tm.status ≠ TimerStatus.RUNNING then tm
  else
    let next := max 0 (tm.remainingSec - tickDeltaSec)
    { tm with remainingSec := next,
              status := if next ≤ 0 then TimerStatus.FINISHED else tm.status }

/-- One tick applied to the whole collection (prev.map in the source). -/
def tickBoard (ts : List GameTimer) : List GameTimer :=
  ts.map tickTimer

/-- The Start/Pause button of TimerCard: RUNNING becomes PAUSED, any
other status becomes RUNNING. -/
def startPauseTimer (tm : GameTimer) : GameTimer :=
  { tm with status :=
      if tm.status = TimerStatus.RUNNING then TimerStatus.PAUSED
      else TimerStatus.RUNNING }

/-- The Reset button of TimerCard. -/
def resetTimer (tm : GameTimer) : GameTimer :=
  { tm with remainingSec := tm.durationSec, status := TimerStatus.PAUSED }

/-- The -1 min button of TimerCard. -/
def minusOneMin (tm : GameTimer) : GameTimer :=
  { tm with remainingSec := max 0 (tm.remainingSec - 60) }

/-- The +1 min button of TimerCard. -/
def plusOneMin (tm : GameTimer) : GameTimer :=
  { tm with remainingSec := tm.remainingSec + 60 }

/-- The Minutes input of TimerCard: the entered value is clamped below
at 1 minute, and remainingSec is clamped to the new duration. -/
def editDurationMinutes (minutesInput : ℚ) (tm : GameTimer) : GameTimer :=
  let mins := max 1 minutesInput
  let durationSec := mins * 60
  { tm with durationSec := durationSec,
            remainingSec := min tm.remainingSec durationSec }

/-- The documented data model invariant: 0 ≤ remainingSec ≤ durationSec. -/
def TimerInv (tm : GameTimer) : Prop :=
  0 ≤ tm.remainingSec ∧ tm.remainingSec ≤ tm.durationSec

/-- A persisted record as re-read from storage, before normalization.
A field is none when it is absent from the blob or has the wrong type
(the source tests typeof and Array.isArray). -/
structure RawTimer where
  id : Option String
  game : Option String
  icon : Option String
  minutes : Option ℚ
  durationSec : Option ℚ
  remainingSec : Option ℚ
  status : Option String
  announceAt : Option (List ℚ)
  pinned : Option Bool
deriving DecidableEq, Repr

/-- JS (o || dflt) for an optional string: the empty string is falsy. -/
def strOr (o : Option String) (dflt : String) : String :=
  match o with
  | some s => if s = "" then dflt else s
  | none => dflt

/-- The duration fallback of usePersistentTimers when durationSec is not
a number: Math.max(60, t.minutes ? t.minutes * 60 : 3000); the number 0
is falsy in JS. -/
def fallbackDurationSec (minutes : Option ℚ) : ℚ :=
  max 60 (match minutes with
    | some m => if m = 0 then 3000 else m * 60
    | none => 3000)

/-- Status normalization: RUNNING and FINISHED are kept, everything else
becomes PAUSED. -/
def statusOfRaw (s : Option String) : TimerStatus :=
  match s with
  | some v =>
    if v = "RUNNING" then TimerStatus.RUNNING
    else if v = "FINISHED" then TimerStatus.FINISHED
    else TimerStatus.PAUSED
  | none => TimerStatus.PAUSED

/-- The per-record normalization map of usePersistentTimers; genId is
the freshly generated identifier used when the stored id is falsy. -/
def normalizeRecord (genId : String) (t : RawTimer) : GameTimer :=
  let durationSec := match t.durationSec with
    | some d => d
    | none => fallbackDurationSec t.minutes
  let remainingSec := min durationSec (match t.remainingSec with
    | some r => r
    | none => durationSec)
  { id := strOr t.id genId
    game := strOr t.game "Untitled Game"
    icon := some (strOr t.icon "🎮")
    durationSec := durationSec
    remainingSec := remainingSec
    status := statusOfRaw t.status
    announceAt := match t.announceAt with
      | some l => l
      | none => [300, 120]
    pinned := match t.pinned with
      | some b => b
      | none => false }

/-- The indexed map (parsed.map((t, i) => ...)) over the parsed blob;
gen i is the identifier generated for position i. -/
def normalizeFrom (gen : ℕ → String) (i : ℕ) : List RawTimer → List GameTimer
  | [] => []
  | t :: ts => normalizeRecord (gen i) t :: normalizeFrom gen (i + 1) ts

/-- Normalization of the whole persisted collection. -/
def normalizeTimers (gen : ℕ → String) (ts : List RawTimer) : List GameTimer :=
  normalizeFrom gen 0 ts

/-- The JSON string stored for a status value. -/
def statusString : TimerStatus → String
  | TimerStatus.RUNNING => "RUNNING"
  | TimerStatus.PAUSED => "PAUSED"
  | TimerStatus.FINISHED => "FINISHED"

/-- Re-reading a serialized normalized timer: every field is present
with its stored value (JSON.stringify writes all fields). -/
def toRaw (tm : GameTimer) : RawTimer :=
  { id := some tm.id
    game := some tm.game
    icon := tm.icon
    minutes := none
    durationSec := some tm.durationSec
    remainingSec := some tm.remainingSec
    status := some (statusString tm.status)
    announceAt := some tm.announceAt
    pinned := some tm.pinned }

/-- A milestone notification handed to the announcer and the overlay. -/
inductive Notification where
  | finished (tid : String)
  | threshold (tid : String) (remaining : ℤ)
deriving DecidableEq, Repr

/-- The reserved lastSeen value meaning already announced Finished. -/
def sentinel : ℤ := -1

/-- Reading lastSeen.current[tid]; none plays the role of undefined. -/
def lastSeenLookup (st : List (String × ℤ)) (tid : String) : Option ℤ :=
  (st.find? (fun p => p.1 == tid)).map (fun p => p.2)

/-- Writing lastSeen.current[tid] = v; the new pair shadows older ones. -/
def lastSeenSet (st : List (String × ℤ)) (tid : String) (v : ℤ) :
    List (String × ℤ) :=
  (tid, v) :: st

/-- The milestone detector body for one timer, from the announcements
effect of TimerBoard: a FINISHED timer fires once and records the
sentinel; otherwise the ceiling of remainingSec fires when it is listed
in announceAt and differs from the recorded value, and the recorded
value is then updated unconditionally. -/
def processTimer (st : List (String × ℤ)) (tm : GameTimer) :
    List (String × ℤ) × List Notification :=
  if tm.status = TimerStatus.FINISHED then
    if lastSeenLookup st tm.id ≠ some sentinel then
      (lastSeenSet st tm.id sentinel, [Notification.finished tm.id])
    else (st, [])
  else
    let remaining : ℤ := ⌈tm.remainingSec⌉
    if (remaining : ℚ) ∈ tm.announceAt ∧ lastSeenLookup st tm.id ≠ some remaining then
      (lastSeenSet st tm.id remaining, [Notification.threshold tm.id remaining])
    else (lastSeenSet st tm.id remaining, [])

/-- One detector pass over the whole collection (timers.forEach). -/
def detectorPass (st : List (String × ℤ)) (ts : List GameTimer) :
    List (String × ℤ) × List Notification :=
  ts.foldl (fun acc tm =>
    let r := processTimer acc.1 tm
    (r.1, acc.2 ++ r.2)) (st, [])

/-- n successive detector passes over a single unchanging timer,
accumulating all emitted notifications. -/
def processN : ℕ → List (String × ℤ) → GameTimer → List (String × ℤ) × List Notification
  | 0, st, _ => (st, [])
  | n + 1, st, tm =>
    let r := processTimer st tm
    let rest := processN n r.1 tm
    (rest.1, r.2 ++ rest.2)

/-- Timer of spec Scenario 2: Running, duration 10, remaining 10. -/
def scenario2Timer : GameTimer :=
  { id := "s2", game := "Scenario 2", icon := none, durationSec := 10,
    remainingSec := 10, status := TimerStatus.RUNNING,
    announceAt := [300, 120], pinned := false }

-- Helper lemmas -------------------------------------------------------

theorem tickDeltaSec_eq_one : tickDeltaSec = 1 := by
  norm_num [tickDeltaSec, tickRateMs]

theorem tickTimer_running (tm : GameTimer) (h : tm.status = TimerStatus.RUNNING) :
    tickTimer tm = { tm with
      remainingSec := max 0 (tm.remainingSec - tickDeltaSec),
      status := if max 0 (tm.remainingSec - tickDeltaSec) ≤ 0 then TimerStatus.FINISHED
        else TimerStatus.RUNNING } := by
  simp [tickTimer, h]

theorem tickTimer_not_running (tm : GameTimer) (h : tm.status ≠ TimerStatus.RUNNING) :
    tickTimer tm = tm := by
  simp [tickTimer, h]

theorem max_zero_le_iff (x : ℚ) : max 0 x ≤ 0 ↔ max 0 x = 0 :=
  ⟨fun h => le_antisymm h (le_max_left 0 x), fun h => le_of_eq h⟩

-- C1 ------------------------------------------------------------------

/-- C1: a tick decreases the remaining seconds of every Running timer by
the tick delta with a clamp at zero, flips its status to FINISHED
exactly when the clamped value reaches zero (otherwise it stays
RUNNING), leaves timers that are not Running unchanged, and the board
tick is the per-timer tick applied to every member; in particular the
Scenario 2 timer (Running, duration 10, remaining 10) has remaining 7
and status RUNNING after three one-second ticks, and a Paused timer is
untouched by a tick. -/
theorem tick_spec :
    (∀ tm : GameTimer, tm.status = TimerStatus.RUNNING →
      (tickTimer tm).remainingSec = max 0 (tm.remainingSec - tickDeltaSec) ∧
      ((tickTimer tm).status = TimerStatus.FINISHED ↔
        max 0 (tm.remainingSec - tickDeltaSec) = 0) ∧
      ((tickTimer tm).status = TimerStatus.RUNNING ↔
        max 0 (tm.remainingSec - tickDeltaSec) ≠ 0)) ∧
    (∀ tm : GameTimer, tm.status ≠ TimerStatus.RUNNING → tickTimer tm = tm) ∧
    (∀ ts : List GameTimer, tickBoard ts = ts.map tickTimer) ∧
    (∀ tm : GameTimer, tm.status = TimerStatus.PAUSED →
      (tickTimer tm).remainingSec = tm.remainingSec ∧
      (tickTimer tm).status = TimerStatus.PAUSED) ∧
    (tickTimer (tickTimer (tickTimer scenario2Timer))).remainingSec = 7 ∧
    (tickTimer (tickTimer (tickTimer scenario2Timer))).status = TimerStatus.RUNNING := by
  refine ⟨?_, ?_, ?_, ?_, ?_, ?_⟩
  · intro tm h
    have hrem : (tickTimer tm).remainingSec = max 0 (tm.remainingSec - tickDeltaSec) := by
      rw [tickTimer_running tm h]
    have hstat : (tickTimer tm).status =
        if max 0 (tm.remainingSec - tickDeltaSec) ≤ 0 then TimerStatus.FINISHED
        else TimerStatus.RUNNING := by
      rw [tickTimer_running tm h]
    refine ⟨hrem, ?_, ?_⟩
    · rw [hstat]
      by_cases hc : max 0 (tm.remainingSec - tickDeltaSec) ≤ 0
      · rw [if_pos hc]
        simp [(max_zero_le_iff _).mp hc]
      · rw [if_neg hc]
        constructor
        · intro he; exact absurd he (by decide)
        · intro h0; exact absurd (le_of_eq h0) hc
    · rw [hstat]
      by_cases hc : max 0 (tm.remainingSec - tickDeltaSec) ≤ 0
      · rw [if_pos hc]
        have h0 := (max_zero_le_iff _).mp hc
        constructor
        · intro he; exact absurd he (by decide)
        · intro hne; exact absurd h0 hne
      · rw [if_neg hc]
        constructor
        · intro _ h0; exact hc (le_of_eq h0)
        · intro _; rfl
  · exact tickTimer_not_running
  · intro ts; rfl
  · intro tm h
    have hne : tm.status ≠ TimerStatus.RUNNING := by rw [h]; intro hc; cases hc
    rw [tickTimer_not_running tm hne, h]
    exact ⟨rfl, rfl⟩
  · norm_num [tickTimer, tickDeltaSec, tickRateMs, scenario2Timer]
  · norm_num [tickTimer, tickDeltaSec, tickRateMs, scenario2Timer]

/-- C1 witness: the general tick characterization applied to the
concrete Scenario 2 timer. -/
theorem tick_spec_witness :
    (tickTimer scenario2Timer).remainingSec =
      max 0 (scenario2Timer.remainingSec - tickDeltaSec) :=
  (tick_spec.1 scenario2Timer rfl).1

-- C2 ------------------------------------------------------------------

/-- Concrete timer whose remaining time equals its duration. -/
def exFullTimer : GameTimer :=
  { id := "c2", game := "Full", icon := none, durationSec := 60,
    remainingSec := 60, status := TimerStatus.PAUSED,
    announceAt := [300, 120], pinned := false }

/-- C2 counterexample: the +1 min button adds 60 seconds without any
clamp, so a timer whose remainingSec equals durationSec leaves the
claimed invariant after the nudge. -/
theorem plus_one_min_exceeds_duration :
    exFullTimer.remainingSec = exFullTimer.durationSec ∧
    ¬ ((plusOneMin exFullTimer).remainingSec ≤ (plusOneMin exFullTimer).durationSec) := by
  constructor
  · norm_num [exFullTimer]
  · norm_num [plusOneMin, exFullTimer]

/-- C2 amended: the invariant 0 ≤ remainingSec ≤ durationSec is
preserved by the tick, the -1 min button, the Start/Pause toggle and the
duration edit, and reset establishes it whenever durationSec is
nonnegative; the +1 min button preserves only the lower bound, since it
adds 60 seconds without clamping to durationSec. -/
theorem invariant_preservation_amended :
    (∀ tm : GameTimer, TimerInv tm → TimerInv (tickTimer tm)) ∧
    (∀ tm : GameTimer, TimerInv tm → TimerInv (minusOneMin tm)) ∧
    (∀ tm : GameTimer, TimerInv tm → TimerInv (startPauseTimer tm)) ∧
    (∀ tm : GameTimer, 0 ≤ tm.durationSec → TimerInv (resetTimer tm)) ∧
    (∀ (m : ℚ) (tm : GameTimer), 0 ≤ tm.remainingSec →
      TimerInv (editDurationMinutes m tm)) ∧
    (∀ tm : GameTimer, 0 ≤ tm.remainingSec → 0 ≤ (plusOneMin tm).remainingSec) ∧
    (∀ tm : GameTimer, (plusOneMin tm).remainingSec = tm.remainingSec + 60) := by
  refine ⟨?_, ?_, ?_, ?_, ?_, ?_, ?_⟩
  · intro tm ⟨h0, hd⟩
    by_cases h : tm.status = TimerStatus.RUNNING
    · rw [tickTimer_running tm h]
      constructor
      · exact le_max_left 0 _
      · simp only
        exact max_le (le_trans h0 hd) (le_trans (by linarith [tickDeltaSec_eq_one]) hd)
    · rw [tickTimer_not_running tm h]
      exact ⟨h0, hd⟩
  · intro tm ⟨h0, hd⟩
    refine ⟨le_max_left 0 _, ?_⟩
    simp only [minusOneMin]
    exact max_le (le_trans h0 hd) (by linarith)
  · intro tm ⟨h0, hd⟩
    exact ⟨h0, hd⟩
  · intro tm hd
    exact ⟨hd, le_refl _⟩
  · intro m tm h0
    have hm : (1 : ℚ) ≤ max 1 m := le_max_left 1 m
    have hd : (0 : ℚ) ≤ max 1 m * 60 := by nlinarith
    exact ⟨le_min h0 hd, min_le_right _ _⟩
  · intro tm h0
    simp only [plusOneMin]
    linarith
  · intro tm; rfl

/-- C2 amended witness: the tick preserves the invariant on the
concrete full timer. -/
theorem invariant_preservation_amended_witness :
    TimerInv (tickTimer exFullTimer) :=
  invariant_preservation_amended.1 exFullTimer
    (by constructor <;> norm_num [exFullTimer])

-- C3 ------------------------------------------------------------------

/-- Concrete Finished timer. -/
def finishedTimer : GameTimer :=
  { id := "c3", game := "Done", icon := none, durationSec := 600,
    remainingSec := 0, status := TimerStatus.FINISHED,
    announceAt := [300, 120], pinned := false }

/-- C3 counterexample: a single Start/Pause toggle applied to a
Finished timer sets its status to RUNNING, with no reset involved. -/
theorem start_toggle_flips_finished_to_running :
    finishedTimer.status = TimerStatus.FINISHED ∧
    (startPauseTimer finishedTimer).status = TimerStatus.RUNNING := by
  constructor <;> rfl

/-- C3 amended: a Running timer whose decremented remaining time
reaches zero transitions to FINISHED with remainingSec = 0, the tick
never changes a FINISHED timer, and reset restores remainingSec =
durationSec with status PAUSED; however the Start/Pause toggle applied
to a FINISHED timer sets its status to RUNNING, so a Finished timer can
revert to Running without an explicit reset. -/
theorem finished_lifecycle_amended :
    (∀ tm : GameTimer, tm.status = TimerStatus.RUNNING →
      tm.remainingSec - tickDeltaSec ≤ 0 →
      (tickTimer tm).status = TimerStatus.FINISHED ∧ (tickTimer tm).remainingSec = 0) ∧
    (∀ tm : GameTimer, tm.status = TimerStatus.FINISHED → tickTimer tm = tm) ∧
    (∀ tm : GameTimer, (resetTimer tm).remainingSec = tm.durationSec ∧
      (resetTimer tm).status = TimerStatus.PAUSED) ∧
    (∀ tm : GameTimer, tm.status = TimerStatus.FINISHED →
      (startPauseTimer tm).status = TimerStatus.RUNNING) := by
  refine ⟨?_, ?_, ?_, ?_⟩
  · intro tm h hle
    have h0 : max 0 (tm.remainingSec - tickDeltaSec) = 0 := max_eq_left hle
    rw [tickTimer_running tm h]
    constructor
    · simp only [h0]
      norm_num
    · exact h0
  · intro tm h
    apply tickTimer_not_running
    rw [h]
    intro hc; cases hc
  · intro tm
    exact ⟨rfl, rfl⟩
  · intro tm h
    simp [startPauseTimer, h]

/-- C3 amended witness: the tick leaves the concrete Finished timer
unchanged. -/
theorem finished_lifecycle_amended_witness :
    tickTimer finishedTimer = finishedTimer :=
  finished_lifecycle_amended.2.1 finishedTimer rfl

-- Detector helper lemmas ----------------------------------------------

theorem lastSeenLookup_set (st : List (String × ℤ)) (tid tid2 : String) (v : ℤ) :
    lastSeenLookup (lastSeenSet st tid v) tid2 =
      if tid = tid2 then some v else lastSeenLookup st tid2 := by
  by_cases h : tid = tid2 <;>
    simp [lastSeenLookup, lastSeenSet, List.find?_cons, h]

theorem processTimer_finished (st : List (String × ℤ)) (tm : GameTimer)
    (h : tm.status = TimerStatus.FINISHED) :
    processTimer st tm =
      if lastSeenLookup st tm.id = some sentinel then (st, [])
      else (lastSeenSet st tm.id sentinel, [Notification.finished tm.id]) := by
  by_cases hc : lastSeenLookup st tm.id = some sentinel <;>
    simp [processTimer, h, hc]

theorem processTimer_not_finished (st : List (String × ℤ)) (tm : GameTimer)
    (h : tm.status ≠ TimerStatus.FINISHED) :
    processTimer st tm =
      (lastSeenSet st tm.id ⌈tm.remainingSec⌉,
       if (⌈tm.remainingSec⌉ : ℚ) ∈ tm.announceAt ∧
           lastSeenLookup st tm.id ≠ some ⌈tm.remainingSec⌉ then
         [Notification.threshold tm.id ⌈tm.remainingSec⌉]
       else []) := by
  by_cases hc : (⌈tm.remainingSec⌉ : ℚ) ∈ tm.announceAt ∧
      lastSeenLookup st tm.id ≠ some ⌈tm.remainingSec⌉ <;>
    simp [processTimer, h, hc]

-- C4 ------------------------------------------------------------------

/-- C4: for a Finished timer the detector emits a Finished notification
exactly when the sentinel is not yet recorded for its id, records the
sentinel in every case, and over any number n of further passes the
total output is a single Finished notification when the sentinel was
absent initially (and nothing at all when it was present); moreover the
tick never changes a Finished timer, so extra ticks cannot re-enable
the notification. -/
theorem finished_notification_exactly_once :
    ∀ (st : List (String × ℤ)) (tm : GameTimer), tm.status = TimerStatus.FINISHED →
      ((processTimer st tm).2 =
        if lastSeenLookup st tm.id = some sentinel then []
        else [Notification.finished tm.id]) ∧
      lastSeenLookup (processTimer st tm).1 tm.id = some sentinel ∧
      (∀ n : ℕ, (processN n st tm).2 =
        if lastSeenLookup st tm.id = some sentinel ∨ n = 0 then []
        else [Notification.finished tm.id]) ∧
      tickTimer tm = tm := by
  have hstate : ∀ (st : List (String × ℤ)) (tm : GameTimer),
      tm.status = TimerStatus.FINISHED →
      lastSeenLookup (processTimer st tm).1 tm.id = some sentinel := by
    intro st tm h
    rw [processTimer_finished st tm h]
    by_cases hc : lastSeenLookup st tm.id = some sentinel
    · simp [hc]
    · simp [hc, lastSeenLookup_set]
  have hrepeat : ∀ (n : ℕ) (st : List (String × ℤ)) (tm : GameTimer),
      tm.status = TimerStatus.FINISHED →
      lastSeenLookup st tm.id = some sentinel →
      (processN n st tm).2 = [] := by
    intro n
    induction n with
    | zero => intro st tm _ _; rfl
    | succ k ih =>
      intro st tm h hs
      have hp : processTimer st tm = (st, []) := by
        rw [processTimer_finished st tm h, if_pos hs]
      simp only [processN, hp]
      simpa using ih st tm h hs
  intro st tm h
  refine ⟨?_, hstate st tm h, ?_, ?_⟩
  · rw [processTimer_finished st tm h]
    by_cases hc : lastSeenLookup st tm.id = some sentinel <;> simp [hc]
  · intro n
    by_cases hc : lastSeenLookup st tm.id = some sentinel
    · simp only [hc, true_or, if_pos]
      exact hrepeat n st tm h hc
    · cases n with
      | zero => simp [processN]
      | succ k =>
        have hp : processTimer st tm =
            (lastSeenSet st tm.id sentinel, [Notification.finished tm.id]) := by
          rw [processTimer_finished st tm h, if_neg hc]
        have hs2 : lastSeenLookup (lastSeenSet st tm.id sentinel) tm.id = some sentinel := by
          simp [lastSeenLookup_set]
        simp only [processN, hp]
        rw [hrepeat k _ tm h hs2]
        simp [hc]
  · apply tickTimer_not_running
    rw [h]
    intro hcon; cases hcon

/-- C4 witness: on the empty detector state, the concrete Finished
timer produces exactly one Finished notification over five passes. -/
theorem finished_notification_exactly_once_witness :
    (processN 5 [] finishedTimer).2 = [Notification.finished "c3"] := by
  have h := (finished_notification_exactly_once [] finishedTimer rfl).2.2.1 5
  simpa [lastSeenLookup, sentinel, finishedTimer] using h

-- C5 ------------------------------------------------------------------

/-- Timer of spec Scenario 4: thresholds five and two minutes,
remaining 301 seconds, running. -/
def scenario4Timer : GameTimer :=
  { id := "s4", game := "Scenario 4", icon := none, durationSec := 1800,
    remainingSec := 301, status := TimerStatus.RUNNING,
    announceAt := [300, 120], pinned := false }

theorem scenario4_tick1 :
    tickTimer scenario4Timer = { scenario4Timer with remainingSec := 300 } := by
  norm_num [tickTimer, tickDeltaSec, tickRateMs, scenario4Timer, max_def]

theorem scenario4_tick2 :
    tickTimer (tickTimer scenario4Timer) =
      { scenario4Timer with remainingSec := 299 } := by
  rw [scenario4_tick1]
  norm_num [tickTimer, tickDeltaSec, tickRateMs, scenario4Timer, max_def]

/-- C5: for a timer that is not Finished, a detector pass emits a
Threshold notification for the ceiling of its remaining seconds exactly
when that value is listed in announceAt and differs from the recorded
last-seen value, and the last-seen value is then updated to the ceiling
unconditionally; in the Scenario 4 run (thresholds 300 and 120,
remaining 301) the pass at 301 emits nothing, the pass after one tick
emits exactly Threshold 300, a repeated pass while remaining stays at
300 emits nothing, and the pass after the next tick (remaining 299)
emits nothing. -/
theorem threshold_notification_spec :
    (∀ (st : List (String × ℤ)) (tm : GameTimer), tm.status ≠ TimerStatus.FINISHED →
      ((processTimer st tm).2 = [Notification.threshold tm.id ⌈tm.remainingSec⌉] ↔
        (⌈tm.remainingSec⌉ : ℚ) ∈ tm.announceAt ∧
          lastSeenLookup st tm.id ≠ some ⌈tm.remainingSec⌉) ∧
      ((processTimer st tm).2 = [] ↔
        ¬ ((⌈tm.remainingSec⌉ : ℚ) ∈ tm.announceAt ∧
           lastSeenLookup st tm.id ≠ some ⌈tm.remainingSec⌉)) ∧
      lastSeenLookup (processTimer st tm).1 tm.id = some ⌈tm.remainingSec⌉) ∧
    (processTimer [] scenario4Timer).2 = [] ∧
    (processTimer (processTimer [] scenario4Timer).1 (tickTimer scenario4Timer)).2 =
      [Notification.threshold "s4" 300] ∧
    (processTimer
        (processTimer (processTimer [] scenario4Timer).1 (tickTimer scenario4Timer)).1
        (tickTimer scenario4Timer)).2 = [] ∧
    (processTimer
        (processTimer (processTimer [] scenario4Timer).1 (tickTimer scenario4Timer)).1
        (tickTimer (tickTimer scenario4Timer))).2 = [] := by
  refine ⟨?_, ?_, ?_, ?_, ?_⟩
  · intro st tm h
    rw [processTimer_not_finished st tm h]
    by_cases hc : (⌈tm.remainingSec⌉ : ℚ) ∈ tm.announceAt ∧
        lastSeenLookup st tm.id ≠ some ⌈tm.remainingSec⌉
    · simp [hc, lastSeenLookup_set]
    · simp [hc, lastSeenLookup_set]
  · decide
  · rw [scenario4_tick1]; decide
  · rw [scenario4_tick1]; decide
  · rw [scenario4_tick2, scenario4_tick1]; decide

/-- C5 witness: the general characterization applied at the empty
state to the Scenario 4 timer. -/
theorem threshold_notification_spec_witness :
    lastSeenLookup (processTimer [] scenario4Timer).1 scenario4Timer.id =
      some ⌈scenario4Timer.remainingSec⌉ :=
  (threshold_notification_spec.1 [] scenario4Timer (by decide)).2.2

-- C10 -----------------------------------------------------------------

/-- C10: a timer with no last-seen entry whose status is not Finished
fires a Threshold notification on its very first detector evaluation as
soon as the ceiling of its remaining seconds is already listed in its
announceAt, even though no descending crossing has occurred. -/
theorem untracked_timer_first_pass_fires :
    ∀ (st : List (String × ℤ)) (tm : GameTimer),
      lastSeenLookup st tm.id = none → tm.status ≠ TimerStatus.FINISHED →
      (⌈tm.remainingSec⌉ : ℚ) ∈ tm.announceAt →
      (processTimer st tm).2 = [Notification.threshold tm.id ⌈tm.remainingSec⌉] := by
  intro st tm h0 h h1
  rw [processTimer_not_finished st tm h]
  simp [h0, h1]

/-- Freshly added timer sitting exactly on a threshold. -/
def freshTimer : GameTimer :=
  { id := "f", game := "Fresh", icon := none, durationSec := 1800,
    remainingSec := 300, status := TimerStatus.PAUSED,
    announceAt := [300, 120], pinned := false }

/-- C10 witness: on the empty detector state the fresh timer fires
Threshold 300 on its first evaluation. -/
theorem untracked_timer_first_pass_fires_witness :
    (processTimer [] freshTimer).2 =
      [Notification.threshold freshTimer.id ⌈freshTimer.remainingSec⌉] :=
  untracked_timer_first_pass_fires [] freshTimer rfl (by decide) (by decide)

-- C6 ------------------------------------------------------------------

/-- A persisted record whose stored remainingSec is negative. -/
def rawNegativeRemaining : RawTimer :=
  { id := some "r1", game := some "G", icon := none, minutes := none,
    durationSec := some 60, remainingSec := some (-5),
    status := some "PAUSED", announceAt := some [300, 120],
    pinned := some false }

/-- C6 counterexample: normalization only applies Math.min with the
duration, so a stored remainingSec of -5 survives as -5 and the
normalized record violates 0 ≤ remainingSec. -/
theorem normalize_keeps_negative_remaining :
    (normalizeRecord "gen" rawNegativeRemaining).remainingSec = -5 ∧
    ¬ (0 ≤ (normalizeRecord "gen" rawNegativeRemaining).remainingSec) := by
  constructor <;>
    norm_num [normalizeRecord, rawNegativeRemaining, min_def]

/-- C6 amended: normalization clamps remainingSec from above by
durationSec for every record, and the lower bound 0 ≤ remainingSec
holds only under the extra assumption that the stored durationSec and
remainingSec values, when numeric, are nonnegative; a negative stored
remainingSec is preserved as is. -/
theorem normalize_remaining_clamped_above :
    (∀ (g : String) (t : RawTimer),
      (normalizeRecord g t).remainingSec ≤ (normalizeRecord g t).durationSec) ∧
    (∀ (g : String) (t : RawTimer),
      (∀ d, t.durationSec = some d → 0 ≤ d) →
      (∀ r, t.remainingSec = some r → 0 ≤ r) →
      0 ≤ (normalizeRecord g t).remainingSec) := by
  constructor
  · intro g t
    simp only [normalizeRecord]
    exact min_le_left _ _
  · intro g t hd hr
    have hdur : 0 ≤ (match t.durationSec with
        | some d => d
        | none => fallbackDurationSec t.minutes) := by
      cases hcase : t.durationSec with
      | some d => exact hd d hcase
      | none =>
        simp only [fallbackDurationSec]
        exact le_trans (by norm_num) (le_max_left 60 _)
    simp only [normalizeRecord]
    apply le_min hdur
    cases hcase : t.remainingSec with
    | some r => exact hr r hcase
    | none => exact hdur

/-- A fully absent persisted record. -/
def rawEmptyRecord : RawTimer :=
  { id := none, game := none, icon := none, minutes := none,
    durationSec := none, remainingSec := none, status := none,
    announceAt := none, pinned := none }

/-- C6 amended witness: the lower bound applied to the record with no
stored numeric fields. -/
theorem normalize_remaining_clamped_above_witness :
    0 ≤ (normalizeRecord "g" rawEmptyRecord).remainingSec :=
  normalize_remaining_clamped_above.2 "g" rawEmptyRecord
    (fun d hd => by simp [rawEmptyRecord] at hd)
    (fun r hr => by simp [rawEmptyRecord] at hr)

-- C7 ------------------------------------------------------------------

/-- A legacy-shaped record: no durationSec, but a minutes field. -/
def rawLegacyMinutes : RawTimer :=
  { id := some "r2", game := some "G", icon := none, minutes := some 30,
    durationSec := none, remainingSec := none, status := none,
    announceAt := none, pinned := none }

/-- C7 counterexample: a record with durationSec missing does not get
the fixed 3000 second fallback when a legacy minutes field is present;
it gets minutes * 60 = 1800 instead. -/
theorem missing_duration_uses_legacy_minutes :
    rawLegacyMinutes.durationSec = none ∧
    (normalizeRecord "gen2" rawLegacyMinutes).durationSec = 1800 ∧
    (1800 : ℚ) ≠ 3000 := by
  refine ⟨rfl, ?_, by norm_num⟩
  norm_num [normalizeRecord, rawLegacyMinutes, fallbackDurationSec, max_def]

/-- C7 amended: a record missing both status and announceAt normalizes
to status PAUSED with announceAt [300, 120]; a missing durationSec
defaults to 3000 seconds only when no truthy legacy minutes field is
present, and otherwise becomes max 60 (minutes * 60) (3000 again when
minutes is the falsy 0). -/
theorem normalize_defaults_amended :
    (∀ (g : String) (t : RawTimer), t.status = none → t.announceAt = none →
      (normalizeRecord g t).status = TimerStatus.PAUSED ∧
      (normalizeRecord g t).announceAt = [300, 120]) ∧
    (∀ (g : String) (t : RawTimer), t.durationSec = none → t.minutes = none →
      (normalizeRecord g t).durationSec = 3000) ∧
    (∀ (g : String) (t : RawTimer) (m : ℚ), t.durationSec = none → t.minutes = some m →
      (normalizeRecord g t).durationSec = if m = 0 then 3000 else max 60 (m * 60)) := by
  refine ⟨?_, ?_, ?_⟩
  · intro g t hs ha
    constructor
    · simp [normalizeRecord, hs, statusOfRaw]
    · simp [normalizeRecord, ha]
  · intro g t hd hm
    norm_num [normalizeRecord, hd, hm, fallbackDurationSec, max_def]
  · intro g t m hd hm
    by_cases h0 : m = 0
    · norm_num [normalizeRecord, hd, hm, fallbackDurationSec, h0, max_def]
    · simp [normalizeRecord, hd, hm, fallbackDurationSec, h0]

/-- C7 amended witness: the legacy record normalizes to status PAUSED. -/
theorem normalize_defaults_amended_witness :
    (normalizeRecord "gen3" rawLegacyMinutes).status = TimerStatus.PAUSED :=
  (normalize_defaults_amended.1 "gen3" rawLegacyMinutes rfl rfl).1

-- C8 ------------------------------------------------------------------

theorem strOr_ne_empty (o : Option String) (dflt : String) (h : dflt ≠ "") :
    strOr o dflt ≠ "" := by
  cases o with
  | none => simpa [strOr] using h
  | some s => by_cases hs : s = "" <;> simp [strOr, hs, h]

theorem strOr_some_of_ne (x dflt : String) (h : x ≠ "") :
    strOr (some x) dflt = x := by
  simp [strOr, h]

theorem statusOfRaw_statusString (st : TimerStatus) :
    statusOfRaw (some (statusString st)) = st := by
  cases st <;> simp [statusOfRaw, statusString]

theorem normalizeRecord_idem (g1 g2 : String) (h : g1 ≠ "") (t : RawTimer) :
    normalizeRecord g2 (toRaw (normalizeRecord g1 t)) = normalizeRecord g1 t := by
  have hid : strOr (some (strOr t.id g1)) g2 = strOr t.id g1 :=
    strOr_some_of_ne _ _ (strOr_ne_empty t.id g1 h)
  have hgame : strOr (some (strOr t.game "Untitled Game")) "Untitled Game" =
      strOr t.game "Untitled Game" :=
    strOr_some_of_ne _ _ (strOr_ne_empty t.game "Untitled Game" (by decide))
  have hicon : strOr (some (strOr t.icon "🎮")) "🎮" = strOr t.icon "🎮" :=
    strOr_some_of_ne _ _ (strOr_ne_empty t.icon "🎮" (by decide))
  simp only [normalizeRecord, toRaw, hid, hgame, hicon, statusOfRaw_statusString]
  simp [GameTimer.mk.injEq, ← min_assoc, min_self]

theorem normalizeFrom_idem (gen1 gen2 : ℕ → String) (h : ∀ i, gen1 i ≠ "") :
    ∀ (ts : List RawTimer) (i : ℕ),
      normalizeFrom gen2 i ((normalizeFrom gen1 i ts).map toRaw) =
        normalizeFrom gen1 i ts := by
  intro ts
  induction ts with
  | nil => intro i; rfl
  | cons t rest ih =>
    intro i
    simp only [normalizeFrom, List.map_cons]
    rw [normalizeRecord_idem (gen1 i) (gen2 i) (h i) t, ih (i + 1)]

/-- C8: load-time normalization is idempotent: re-normalizing the
serialized form of an already-normalized collection returns the very
same collection, record for record and in the same order, whenever the
identifier generator never produces the empty (falsy) string, as the
UUID and timestamp generators of the source never do. -/
theorem normalize_idempotent (gen1 gen2 : ℕ → String) (h : ∀ i, gen1 i ≠ "")
    (ts : List RawTimer) :
    normalizeTimers gen2 ((normalizeTimers gen1 ts).map toRaw) =
      normalizeTimers gen1 ts :=
  normalizeFrom_idem gen1 gen2 h ts 0

/-- C8 witness: idempotence at a concrete one-record collection. -/
theorem normalize_idempotent_witness :
    normalizeTimers (fun _ => "u2")
        ((normalizeTimers (fun _ => "u1") [rawEmptyRecord]).map toRaw) =
      normalizeTimers (fun _ => "u1") [rawEmptyRecord] :=
  normalize_idempotent (fun _ => "u1") (fun _ => "u2")
    (fun _ => (by decide : ("u1" : String) ≠ "")) [rawEmptyRecord]

-- C9 ------------------------------------------------------------------

theorem toDigitsCore_length_ge (b : ℕ) :
    ∀ (fuel n : ℕ) (ds : List Char),
      ds.length + 1 ≤ (Nat.toDigitsCore b (fuel + 1) n ds).length := by
  intro fuel
  induction fuel with
  | zero =>
    intro n ds
    simp only [Nat.toDigitsCore]
    split
    · simp
    · simp [Nat.toDigitsCore]
  | succ f ih =>
    intro n ds
    simp only [Nat.toDigitsCore]
    split
    · simp
    · calc ds.length + 1 ≤ (Nat.digitChar (n % b) :: ds).length := by simp
        _ ≤ (Nat.toDigitsCore b (f + 1) (n / b) (Nat.digitChar (n % b) :: ds)).length :=
          le_trans (Nat.le_succ _) (ih (n / b) (Nat.digitChar (n % b) :: ds))

theorem one_le_repr_length (n : ℕ) : 1 ≤ (Nat.repr n).length := by
  have h := toDigitsCore_length_ge 10 n n []
  simpa [Nat.repr, Nat.toDigits] using h

theorem two_le_pad_length (n : ℕ) : 2 ≤ (pad n).length := by
  have h1 := one_le_repr_length n
  show 2 ≤ (if (Nat.repr n).length < 2 then "0" ++ Nat.repr n else Nat.repr n).length
  by_cases h : (Nat.repr n).length < 2
  · rw [if_pos h, String.length_append, show ("0" : String).length = 1 from rfl]
    omega
  · rw [if_neg h]
    omega

/-- C9: the formatter floors its rational input and clamps it at zero
before formatting, renders MM:SS when the whole-hour component is zero
and HH:MM:SS otherwise, pads every field with zeros to at least two
characters (exactly two for any field value below 100, which covers the
minute and second fields always), accepts every rational input, and on
the concrete spec inputs returns 01:01:01 for 3661, 00:59 for 59 and
00:00 for -5. -/
theorem formatHHMMSS_spec :
    (∀ x : ℚ, formatHHMMSS x = formatHHMMSS (((max 0 ⌊x⌋ : ℤ) : ℚ))) ∧
    (∀ x : ℚ, (max 0 ⌊x⌋).toNat / 3600 = 0 →
      formatHHMMSS x =
        pad ((max 0 ⌊x⌋).toNat / 60) ++ ":" ++ pad ((max 0 ⌊x⌋).toNat % 60)) ∧
    (∀ x : ℚ, (max 0 ⌊x⌋).toNat / 3600 ≠ 0 →
      formatHHMMSS x =
        pad ((max 0 ⌊x⌋).toNat / 3600) ++ ":" ++
          pad ((max 0 ⌊x⌋).toNat % 3600 / 60) ++ ":" ++
          pad ((max 0 ⌊x⌋).toNat % 60)) ∧
    (∀ n : ℕ, n < 100 → (pad n).length = 2) ∧
    (∀ n : ℕ, 2 ≤ (pad n).length) ∧
    formatHHMMSS 3661 = "01:01:01" ∧
    formatHHMMSS 59 = "00:59" ∧
    formatHHMMSS (-5) = "00:00" := by
  refine ⟨?_, ?_, ?_, by decide, two_le_pad_length, by decide, by decide, by decide⟩
  · intro x
    have hf : ⌊((max 0 ⌊x⌋ : ℤ) : ℚ)⌋ = max 0 ⌊x⌋ := Int.floor_intCast _
    simp only [formatHHMMSS, hf, ← max_assoc, max_self]
  · intro x h0
    have hlt : (max 0 ⌊x⌋).toNat < 3600 := by omega
    simp only [formatHHMMSS]
    rw [if_neg (by omega), Nat.mod_eq_of_lt hlt]
  · intro x h0
    simp only [formatHHMMSS]
    rw [if_pos (by omega)]

/-- C9 witness: the HH:MM:SS branch applied at the concrete input
3661. -/
theorem formatHHMMSS_spec_witness :
    formatHHMMSS 3661 =
      pad ((max 0 ⌊(3661 : ℚ)⌋).toNat / 3600) ++ ":" ++
        pad ((max 0 ⌊(3661 : ℚ)⌋).toNat % 3600 / 60) ++ ":" ++
        pad ((max 0 ⌊(3661 : ℚ)⌋).toNat % 60) :=
  formatHHMMSS_spec.2.2.1 3661 (by decide)
